import Mathlib

/-!
Verification of the natural-language specification of `asnaeb/dynamodb-local`
against a shallow embedding of `src/dynamodb-local.ts`, `src/download-dynamodb.ts`,
`src/error.ts` and `src/shell.ts`.

The embedding translates the synchronous decision logic of the source into pure
Lean functions.  I/O primitives (filesystem listing, directory creation, file
removal, process spawning, listener registration) are represented explicitly:
filesystem reads as function-valued `FileSystem` fields, filesystem writes as an
`FsEffect` log, spawning as a `SpawnRecord` log, and attached child-process
listeners as a `Listener` list, so each claim about ordering of validation and
side effects becomes a statement about the returned values.
-/

namespace DDB

/-- From `shell.ts`: `styles.underline(text)` returns
`Styles.UNDERLINE + text + Styles.RESET`, i.e. the ANSI underline wrapping. -/
def underline (text : String) : String := "\x1b[4m" ++ text ++ "\x1b[0m"

/-- From `error.ts`: a `DynamoDBLocalError` is an `Error` with a `name` and a
`message`; the `verbose` constructor argument only controls console printing,
which we track separately where a claim needs it. -/
structure DynamoDBLocalError where
  name : String
  message : String
deriving DecidableEq, Repr

/-- `node:path` `join` on two segments (posix separator), as used by the source
for every `join(a, b)` call. -/
def pjoin (a b : String) : String := a ++ "/" ++ b

/-- A filesystem write performed by the embedded code: `mkdir(path, recursive)`.
The source always wraps these calls in `try {...} catch {}`, so only the fact
that the call was issued is observable. -/
inductive FsEffect where
  | mkdirRec (path : String)
deriving DecidableEq, Repr

/-- An element of the runtime `cors` array.  The TypeScript type says `string[]`
but the code re-checks `typeof c === 'string'` at runtime, so an element is
either an actual string or some non-string value. -/
inductive CorsElem where
  | str (s : String)
  | nonStr
deriving DecidableEq, Repr

/-- Runtime test `typeof c === 'string'`. -/
def CorsElem.isStr : CorsElem → Bool
  | .str _ => true
  | .nonStr => false

/-- The string an element contributes to `cors.join(', ')`; only consulted when
every element is a string. -/
def CorsElem.toStr : CorsElem → String
  | .str s => s
  | .nonStr => ""

/-- The runtime value of the `cors` option when present: an array (of possibly
non-string elements) or a non-array value, matching the `Array.isArray(cors)`
runtime check in the source. -/
inductive CorsVal where
  | arr (xs : List CorsElem)
  | notArr
deriving DecidableEq, Repr

/-- The runtime value of the `port` option when present: a number with an
integral value, a finite non-integer number (e.g. `3000.5`), or a non-numeric
value (e.g. the string `"abc"`); `Number.isInteger` distinguishes exactly the
first case. -/
inductive PortVal where
  | int (n : Int)
  | nonIntNum
  | nonNum
deriving DecidableEq, Repr

/-- `Number.isInteger(port)`. -/
def PortVal.isInteger : PortVal → Bool
  | .int _ => true
  | _ => false

/-- `String(port)`, only reached by the source when `Number.isInteger(port)`
holds, in which case it is the decimal rendering of the integer. -/
def PortVal.toJsString : PortVal → String
  | .int n => toString n
  | _ => ""

/-- The `DynamoDBOptions` configuration object of `dynamodb-local.ts`; every
field is optional (absent = `undefined`). -/
structure DynamoDBOptions where
  cors : Option CorsVal := none
  dbPath : Option String := none
  delayTransientStatuses : Option Bool := none
  inMemory : Option Bool := none
  port : Option PortVal := none
  sharedDB : Option Bool := none
deriving Repr

/-- JavaScript truthiness of an optional boolean option (`undefined` is falsy). -/
def jsBool (b : Option Bool) : Bool := b.getD false

/-- JavaScript truthiness of the `dbPath` option: `undefined` and the empty
string are falsy, every other string is truthy. -/
def dbTruthy : Option String → Bool
  | none => false
  | some s => s != ""

/-- Lines 100-101 of `dynamodb-local.ts`: the contribution of the `cors` option
to the argument list.  `Array.isArray(cors) && cors?.length && cors.every(c =>
typeof c === 'string')` guards pushing `'-cors', cors.join(', ')`; otherwise
nothing is pushed and no error is raised. -/
def corsPart : Option CorsVal → List String
  | some (.arr xs) =>
    if xs.length != 0 && xs.all CorsElem.isStr then
      ["-cors", String.intercalate (", ") (xs.map CorsElem.toStr)]
    else []
  | _ => []

/-- Lines 103-106 of `dynamodb-local.ts`: the `port` option, when present, is
pushed as `'-port', String(port)` when `Number.isInteger(port)`, and otherwise
raises the config error `Port must be an Integer`. -/
def portPart : Option PortVal → Except DynamoDBLocalError (List String)
  | none => .ok []
  | some p =>
    if p.isInteger then .ok ["-port", p.toJsString]
    else .error ⟨"config error", "Port must be an Integer"⟩

/-- Lines 110-114 of `dynamodb-local.ts`: the config error raised when both
`inMemory` and `dbPath` are (truthily) set. -/
def inMemoryDbPathError : DynamoDBLocalError :=
  ⟨"config error",
   "When option " ++ underline ("dbPath") ++ " is set, option " ++
   underline ("inMemory") ++ " cannot be used and must be omitted"⟩

/-- The result of `#generateArgs`: the built argument list plus the log of
directory-creation calls issued while building it. -/
structure ArgsOut where
  args : List String
  effects : List FsEffect
deriving DecidableEq, Repr

/-- Lines 97-99 of `dynamodb-local.ts`: the initial argument list
`['-Djava.library.path=' + libpath, '-jar', jarpath]`. -/
def baseArgs (instPath : String) : List String :=
  ["-Djava.library.path=" ++ pjoin instPath ("DynamoDBLocal_lib"), "-jar",
   pjoin instPath ("DynamoDBLocal.jar")]

/-- Line 109 of `dynamodb-local.ts`: `-inMemory` is pushed exactly when the
`inMemory` option is truthy (the conflicting case having already thrown). -/
def memArgs (inMem : Bool) : List String := if inMem then ["-inMemory"] else []

/-- Lines 117-129 of `dynamodb-local.ts`: the data-directory section.  With a
truthy `dbPath` and falsy `inMemory` the resolved path is `mkdir`-ed
(best-effort) and pushed with the optimize flag; with both falsy the default
`<installPath>/DynamoDBLocal_db` is `mkdir`-ed and pushed without it; with a
truthy `inMemory` nothing happens here. -/
def dbSection (instPath : String) (resolveNorm : String → String) (inMem : Bool)
    (dbPath : Option String) : List String × List FsEffect :=
  let db := dbTruthy dbPath
  if db && !inMem then
    let p := resolveNorm (dbPath.getD (""))
    (["-dbPath", p, "-optimizeDbBeforeStartup"], [FsEffect.mkdirRec p])
  else if !db && !inMem then
    let p := pjoin instPath ("DynamoDBLocal_db")
    (["-dbPath", p], [FsEffect.mkdirRec p])
  else ([], [])

/-- Lines 131-135 of `dynamodb-local.ts`: the two trailing boolean flags. -/
def flagArgs (delay shared : Bool) : List String :=
  (if delay then ["-delayTransientStatuses"] else []) ++
  (if shared then ["-sharedDb"] else [])

/-- `#generateArgs` of `dynamodb-local.ts` (lines 96-138).  `instPath` is the
manager's resolved installation path `this.#path`; `resolveNorm` stands for
`path.resolve(path.normalize(·))` of `node:path`, kept as a parameter because
its output depends on the process working directory.  Faithful to the source
order: base java arguments, then `cors`, then the `port` check (which can throw
first), then the `inMemory`/`dbPath` mutual-exclusion check (throwing before any
`mkdir` for `dbPath`), then the `dbPath` or default-database section with its
`mkdir` call, then the two boolean flags.  A thrown `DynamoDBLocalError` is the
`Except.error` case, which carries no argument list and no filesystem effect. -/
def generateArgs (instPath : String) (resolveNorm : String → String)
    (o : DynamoDBOptions) : Except DynamoDBLocalError ArgsOut :=
  match portPart o.port with
  | .error e => .error e
  | .ok pp =>
    if jsBool o.inMemory && dbTruthy o.dbPath then
      .error inMemoryDbPathError
    else
      let dbPart := dbSection instPath resolveNorm (jsBool o.inMemory) o.dbPath
      .ok ⟨baseArgs instPath ++ corsPart o.cors ++ pp ++ memArgs (jsBool o.inMemory) ++
        dbPart.1 ++ flagArgs (jsBool o.delayTransientStatuses) (jsBool o.sharedDB),
        dbPart.2⟩

/-- The argument list of a successful build, `[]` for a rejected one; used to
state membership facts about the produced list. -/
def argsOf : Except DynamoDBLocalError ArgsOut → List String
  | .ok out => out.args
  | .error _ => []

/-- A `fs.Dirent` as far as `#find` consumes it: a name plus the results of the
`isFile()` and `isDirectory()` probes. -/
structure Dirent where
  name : String
  isFile : Bool
  isDirectory : Bool
deriving DecidableEq, Repr

/-- The filesystem view consumed by `#find`: `readdirTypes` is
`readdir(path, {withFileTypes: true})` and `readdirNames` is plain
`readdir(path)`; `none` models a rejected call (path missing, permission
denied, ...), which the source catches. -/
structure FileSystem where
  readdirTypes : String → Option (List Dirent)
  readdirNames : String → Option (List String)

/-- `DynamoDBLocalBuilder.#find` of `dynamodb-local.ts` (lines 66-84).
`resolveNorm` stands for `path.resolve(path.normalize(·))`.  The manifest
`libIndex` is imported by the source from `src/lib-index.ts`, a file of this
repository that is not included here; the spec describes it only as "a fixed
manifest of expected support-library filenames", so it is kept as a parameter.
Any readdir rejection lands in the enclosing `catch {}` and yields `false`. -/
def find (fs : FileSystem) (resolveNorm : String → String) (libIndex : List String)
    (path : String) : Bool :=
  let p := resolveNorm path
  match fs.readdirTypes p with
  | none => false
  | some files =>
    let jar := files.any fun file => file.name == "DynamoDBLocal.jar" && file.isFile
    let lib := files.any fun file => file.name == "DynamoDBLocal_lib" && file.isDirectory
    if jar && lib then
      match fs.readdirNames (pjoin p ("DynamoDBLocal_lib")) with
      | none => false
      | some libFiles => libIndex.all fun file => libFiles.contains file
    else false

/-- The state a manager instance keeps between calls: `this.#dynamodb`, the
optional child-process handle, represented by its pid. -/
structure ManagerState where
  dynamodb : Option Nat
deriving DecidableEq, Repr

/-- A `spawn(cmd, args)` call issued by `start`. -/
structure SpawnRecord where
  cmd : String
  args : List String
deriving DecidableEq, Repr

/-- The listeners `start` registers on the spawned child process, in source
order: the `'exit'` logger (line 256), then inside the returned promise the
`'error'` rejecter (line 259), the stdout `'data'` readiness watcher
(line 264), and a second copy of the `'error'` rejecter (line 283).
`stderrData` names a `stderr` `'data'` listener, which the current source never
registers. -/
inductive Listener where
  | exitEvent
  | errorEvent
  | stdoutData
  | stderrData
deriving DecidableEq, Repr

/-- The child-process listeners registered by `start` (lines 256-288), in
registration order.  The source attaches the process-level `'error'` rejecter
twice and attaches nothing to the child's stderr stream. -/
def startChildListeners : List Listener :=
  [.exitEvent, .errorEvent, .stdoutData, .errorEvent]

/-- Line 292-296 of `dynamodb-local.ts`: the error thrown by `start` when a
child-process handle already exists, carrying the existing pid. -/
def alreadyRunningError (pid : Nat) : DynamoDBLocalError :=
  ⟨"error", "DynamoDB process is already running with pid: " ++ underline (toString pid)⟩

/-- Line 250 of `dynamodb-local.ts`: the error thrown by non-verbose `start`
when the installation is missing and `install` was not requested. -/
def notFoundError (instPath : String) : DynamoDBLocalError :=
  ⟨"error", "DynamoDB not found at " ++ underline (instPath)⟩

/-- What `start` hands back when it does not throw: the pending promise with
its registered child listeners, or the bare `undefined` return of the verbose
path when the user declines the install prompt. -/
inductive StartReturn where
  | pendingPromise (listeners : List Listener)
  | earlyVoid
deriving DecidableEq, Repr

/-- `start` of `dynamodb-local.ts` (lines 224-297), up to the point where the
returned promise is pending.  Parameters stand for the I/O consulted along the
way: `installed` is the `#find` result, `promptYes` the interactive answer of
the verbose install prompt, `installOpt` the `args?.install` flag (the verbose
prompt path and the `install()` download itself are treated as succeeding, as
no claim depends on their internals).  Faithful control flow: when a handle
already exists the function throws `alreadyRunningError` before touching
anything (the whole spawn block is guarded by `if (!this.#dynamodb)`);
otherwise it builds the arguments via `#generateArgs` (whose error propagates),
spawns `java`, stores the new handle and returns the pending promise with
`startChildListeners` attached. -/
def start (instPath : String) (resolveNorm : String → String)
    (verbose installed promptYes installOpt : Bool) (opts : Option DynamoDBOptions)
    (st : ManagerState) (newPid : Nat) :
    ManagerState × List SpawnRecord × Except DynamoDBLocalError StartReturn :=
  match st.dynamodb with
  | some pid => (st, [], .error (alreadyRunningError pid))
  | none =>
    if !installed && verbose && !promptYes then
      (st, [], .ok .earlyVoid)
    else if !installed && !verbose && !installOpt then
      (st, [], .error (notFoundError instPath))
    else
      match generateArgs instPath resolveNorm (opts.getD {}) with
      | .error e => (st, [], .error e)
      | .ok out => (⟨some newPid⟩, [⟨"java", out.args⟩], .ok (.pendingPromise startChildListeners))

/-- Line 307-311 of `dynamodb-local.ts`: the error `stop` rejects with when no
process was killed. -/
def notRunningError : DynamoDBLocalError :=
  ⟨"error", "Requested DynamoDB process not killed because it was not running"⟩

/-- How a `stop` call settles: resolved (with or without the verbose info log),
or rejected with an error whose construction printed to the console exactly
when `printedToConsole` (the `verbose` flag handed to `DynamoDBLocalError`). -/
inductive StopOutcome where
  | resolvedUnit
  | resolvedInfoLogged
  | rejected (e : DynamoDBLocalError) (printedToConsole : Bool)
deriving DecidableEq, Repr

/-- Whether the outcome is a resolved (fulfilled) promise. -/
def StopOutcome.isResolved : StopOutcome → Bool
  | .rejected _ _ => false
  | _ => true

/-- `stop` of `dynamodb-local.ts` (lines 299-312).  `killSucceeds` is the
boolean `kill()` would return if a handle exists; `this.#dynamodb?.kill()` is
`undefined` (falsy) when no handle exists.  On a truthy kill the handle is
cleared and the call resolves (logging in verbose mode); otherwise the call
returns a rejected promise carrying `notRunningError`, whose constructor prints
it to the console exactly in the verbose variant. -/
def stop (verbose : Bool) (st : ManagerState) (killSucceeds : Bool) :
    ManagerState × StopOutcome :=
  let killed : Option Bool := st.dynamodb.map fun _ => killSucceeds
  if killed.getD false then
    (⟨none⟩, if verbose then .resolvedInfoLogged else .resolvedUnit)
  else
    (st, .rejected notRunningError verbose)

/-- `node:path` `parse(p).name`: the basename of `p` without its final
extension (a basename with no dot, or whose only dot is the leading one, is
returned whole). -/
def parseName (p : String) : String :=
  let b := (p.data.reverse.takeWhile fun c => c != '/').reverse
  let r := b.reverse
  let afterDot := (r.dropWhile fun c => c != '.').drop 1
  if r.all fun c => c != '.' then ⟨b⟩
  else if afterDot.isEmpty then ⟨b⟩
  else ⟨afterDot.reverse⟩

/-- Lines 157-163 of `dynamodb-local.ts`: the five entries `uninstall` removes
individually on a non-default installation path. -/
def uninstallFileList (p : String) : List String :=
  [pjoin p ("DynamoDBLocal_lib"), pjoin p ("DynamoDBLocal.jar"), pjoin p ("LICENSE.txt"),
   pjoin p ("README.txt"), pjoin p ("THIRD-PARTY-LICENSES.txt")]

/-- Line 143 of `dynamodb-local.ts`: the error thrown when the locator reports
not-installed. -/
def notInstalledError (p : String) : DynamoDBLocalError :=
  ⟨"error", "DynamoDB is not installed at " ++ underline (p)⟩

/-- Lines 177-181 of `dynamodb-local.ts`: the hard uninstall error listing the
entries whose removal rejected. -/
def uninstallHardError (rejectedNames : List String) : DynamoDBLocalError :=
  ⟨"uninstall error",
   "The following files could not be removed: [" ++
   String.intercalate (", ") rejectedNames ++ "]"⟩

/-- Line 185-187 of `dynamodb-local.ts`: the verbose warning text for
auxiliary-only removal failures. -/
def uninstallAuxWarning (rejectedNames : List String) : String :=
  "DynamoDB was successfully uninstalled but the following files were not removed: [" ++
  String.intercalate (", ") rejectedNames ++ "]"

/-- How an `uninstall` call settles. -/
inductive UninstallOutcome where
  | rejected (e : DynamoDBLocalError)
  | resolvedDefaultRemoved (infoLogged : Bool)
  | resolvedWithWarning (warning : Option String)
  | resolvedClean (infoLogged : Bool)
deriving DecidableEq, Repr

/-- `uninstall` of `dynamodb-local.ts` (lines 140-194).  `installed` is the
`#find` result, `treeRmError` the failure (if any) of the whole-tree `rm` used
on the default path, and `rmFails` tells which of the five per-entry `rm` calls
reject on a non-default path.  The rejected entries are collected in list order
as `parse(file).name` and the call fails hard exactly when that collection
contains `'DynamoDBLocal_lib'` or `'DynamoDBLocal.jar'`; otherwise it resolves,
warning (verbose only) when some entries remain. -/
def uninstall (instPath defaultPath : String) (verbose installed : Bool)
    (treeRmError : Option DynamoDBLocalError) (rmFails : String → Bool) :
    UninstallOutcome :=
  if !installed then .rejected (notInstalledError instPath)
  else if instPath == defaultPath then
    match treeRmError with
    | none => .resolvedDefaultRemoved verbose
    | some e => .rejected e
  else
    let files := uninstallFileList instPath
    let rejectedNames := (files.filter fun file => rmFails file).map parseName
    if rejectedNames.isEmpty then .resolvedClean verbose
    else if rejectedNames.contains ("DynamoDBLocal_lib") ||
            rejectedNames.contains ("DynamoDBLocal.jar") then
      .rejected (uninstallHardError rejectedNames)
    else
      .resolvedWithWarning (if verbose then some (uninstallAuxWarning rejectedNames) else none)

/-- Line 57 of `download-dynamodb.ts`: the error thrown (then re-wrapped with
the same name and message by the `catch`) when the response has no
content-length header. -/
def sizeUnknownError : DynamoDBLocalError :=
  ⟨"error", "Unable to determine response size"⟩

/-- How the response callback of `downloadDynamoDB` proceeds: either the
destination directory is created and the tar-gzip extraction pipeline is
started, or the promise is rejected before any of that. -/
inductive DownloadStep where
  | proceedPipeline (effects : List FsEffect)
  | rejectedError (e : DynamoDBLocalError)
deriving DecidableEq, Repr

/-- The body of the response callback of `downloadDynamoDB`
(`download-dynamodb.ts`, lines 25-63) as a function of the content-length
header value (`none` = header absent).  `if (length)` guards the whole
mkdir/stream/extract pipeline; the `else` branch throws `sizeUnknownError`,
which the `catch` re-wraps (same name, same message) and rejects with. -/
def downloadOnResponse (destination : String) (contentLength : Option String) :
    DownloadStep :=
  match contentLength with
  | some l =>
    if l != "" then .proceedPipeline [FsEffect.mkdirRec destination]
    else .rejectedError sizeUnknownError
  | none => .rejectedError sizeUnknownError

/-- The invalid-`cors` shapes enumerated by claim C10: absent, not an array,
an empty array, or an array with a non-string element; exactly the
configurations on which the guard on line 100 of the source is false. -/
def corsInvalid : Option CorsVal → Bool
  | none => true
  | some .notArr => true
  | some (.arr xs) => xs.isEmpty || !(xs.all CorsElem.isStr)

/-- A concrete filesystem used to witness the installation-locator theorem: a
valid installation at `/p` with two library files. -/
def sampleFs : FileSystem where
  readdirTypes := fun p =>
    if p == "/p" then
      some [⟨"DynamoDBLocal.jar", true, false⟩, ⟨"DynamoDBLocal_lib", false, true⟩]
    else none
  readdirNames := fun p =>
    if p == "/p/DynamoDBLocal_lib" then some ["x.jar", "y.jar"] else none

/-- Every path produced by `pjoin` contains the separator character. -/
theorem slash_mem_pjoin (a b : String) : '/' ∈ (pjoin a b).data := by
  have hsep : ("/" : String).data = ['/'] := rfl
  simp [pjoin, String.data_append, hsep]

/-- A string without the separator character differs from every joined path. -/
theorem pjoin_ne (a b s : String) (h : '/' ∉ s.data) : pjoin a b ≠ s :=
  fun e => h (e ▸ slash_mem_pjoin a b)

/-- The second character of the java-library-path argument is `D`, for any
library path suffix. -/
theorem djava_second_char (lib : String) :
    ("-Djava.library.path=" ++ lib).data.get? 1 = some 'D' := by
  rw [String.data_append]; rfl

/-- The java-library-path argument differs from every string whose second
character is not `D`. -/
theorem djava_ne (lib s : String) (h : s.data.get? 1 ≠ some 'D') :
    "-Djava.library.path=" ++ lib ≠ s :=
  fun e => h (e ▸ djava_second_char lib)

/-- The only error `portPart` can produce is the integer config error. -/
theorem portPart_error_eq (po : Option PortVal) (e : DynamoDBLocalError)
    (h : portPart po = Except.error e) :
    e = ⟨"config error", "Port must be an Integer"⟩ := by
  cases po with
  | none => simp [portPart] at h
  | some p =>
    by_cases hpi : p.isInteger = true
    · simp [portPart, hpi] at h
    · simp [portPart, hpi] at h
      exact h.symm

/-- The shape of a successful `portPart` result. -/
theorem portPart_ok_shape (po : Option PortVal) (pp : List String)
    (h : portPart po = Except.ok pp) :
    (po = none ∧ pp = []) ∨ ∃ pv, po = some pv ∧ pp = ["-port", pv.toJsString] := by
  cases po with
  | none =>
    left
    refine ⟨rfl, ?_⟩
    have h2 : Except.ok (ε := DynamoDBLocalError) ([] : List String) = Except.ok pp := h
    exact ((Except.ok.injEq _ _).mp h2).symm
  | some p =>
    right
    refine ⟨p, rfl, ?_⟩
    by_cases hpi : p.isInteger = true
    · simp [portPart, hpi] at h
      exact h.symm
    · simp [portPart, hpi] at h

/-- Claim C1: for every configuration with `inMemory` truthy and a non-empty
`dbPath`, `#generateArgs` fails with a config error; the `Except.error` result
carries no argument list and no filesystem effect, so no directory-creation
call for `dbPath` is issued. -/
theorem generateArgs_inMemory_dbPath_rejects (ip : String) (rn : String → String)
    (o : DynamoDBOptions) (s : String) (hm : o.inMemory = some true)
    (hd : o.dbPath = some s) (hs : s ≠ "") :
    ∃ e, generateArgs ip rn o = Except.error e ∧ e.name = "config error" := by
  have hdb : dbTruthy o.dbPath = true := by
    rw [hd]
    simpa [dbTruthy] using hs
  have him : jsBool o.inMemory = true := by rw [hm]; rfl
  unfold generateArgs
  cases hpp : portPart o.port with
  | error e =>
    refine ⟨e, by simp, ?_⟩
    rw [portPart_error_eq o.port e hpp]
  | ok pp =>
    refine ⟨inMemoryDbPathError, ?_, rfl⟩
    simp [him, hdb]

/-- Witness for C1 at a concrete conflicting configuration. -/
theorem generateArgs_inMemory_dbPath_rejects_witness :
    ∃ e, generateArgs ("/i") id
        {inMemory := some true, dbPath := some ("/tmp/x")} = Except.error e ∧
      e.name = "config error" :=
  generateArgs_inMemory_dbPath_rejects ("/i") id _ ("/tmp/x") rfl rfl (by decide)

/-- Claim C2: when a child-process handle already exists, `start` rejects with
the already-running error carrying the existing pid, records no spawn, and
returns the state unchanged (the handle is neither queued, replaced nor
cleared). -/
theorem start_already_running (ip : String) (rn : String → String)
    (verbose installed promptYes installOpt : Bool) (opts : Option DynamoDBOptions)
    (st : ManagerState) (newPid pid : Nat) (hst : st.dynamodb = some pid) :
    start ip rn verbose installed promptYes installOpt opts st newPid =
      (st, [], Except.error (alreadyRunningError pid)) := by
  unfold start
  rw [hst]

/-- Witness for C2: a second `start` on a manager already holding pid 42. -/
theorem start_already_running_witness :
    start ("/i") id false true false false none ⟨some 42⟩ 7 =
      (⟨some 42⟩, [], Except.error (alreadyRunningError 42)) :=
  start_already_running ("/i") id false true false false none ⟨some 42⟩ 7 42 rfl

/-- Claim C6 (counterexample): in the verbose (CLI) variant, `stop` on an
instance with no child-process handle does not resolve — it returns a rejected
promise carrying the not-running error (printed to the console by the error
constructor), contrary to the claim that the CLI variant resolves. -/
theorem stop_verbose_no_handle_still_rejects :
    (stop true ⟨none⟩ true).2 = StopOutcome.rejected notRunningError true ∧
    (stop true ⟨none⟩ true).2.isResolved = false := by
  decide

/-- Claim C6 (amended): in both variants, `stop` on an instance with no
child-process handle returns a rejected promise (never an unhandled throw)
carrying the not-running error, leaving the state unchanged; the error text is
printed to the console exactly in the verbose variant. -/
theorem stop_no_handle_rejects (verbose killSucceeds : Bool) (st : ManagerState)
    (h : st.dynamodb = none) :
    stop verbose st killSucceeds = (st, StopOutcome.rejected notRunningError verbose) := by
  simp [stop, h]

/-- Witness for the amended C6 in the library (non-verbose) variant. -/
theorem stop_no_handle_rejects_witness :
    stop false ⟨none⟩ true = (⟨none⟩, StopOutcome.rejected notRunningError false) :=
  stop_no_handle_rejects false true ⟨none⟩ rfl

/-- Claim C7 (code evaluated at the failing input): `start` attaches no
listener to the child's stderr stream — the registration list holds the exit
logger, the stdout readiness watcher, and the process-level error rejecter
twice, so bytes on stderr during the Starting phase cannot reject the pending
promise. -/
theorem start_attaches_no_stderr_listener :
    Listener.stderrData ∉ startChildListeners := by
  decide

/-- Claim C8 (code evaluated at the failing input): on a non-default installed
path where only the removal of `DynamoDBLocal.jar` fails, `uninstall` resolves
with the auxiliary-failure warning (listing the extension-stripped name
`DynamoDBLocal`) instead of failing hard: `parse(file).name` strips `.jar`, so
the guard `rejected.includes('DynamoDBLocal.jar')` can never fire. -/
theorem uninstall_jar_failure_not_hard :
    uninstall ("/inst") ("/opt/dynamodb") true true none
        (fun file => file == "/inst/DynamoDBLocal.jar") =
      UninstallOutcome.resolvedWithWarning (some (uninstallAuxWarning ["DynamoDBLocal"])) := by
  decide

/-- Claim C9: the response callback of `downloadDynamoDB` rejects with the
size-unknown error when the content-length header is absent, and the
mkdir-and-extract pipeline is only ever entered on a (truthy) content-length
header. -/
theorem download_requires_content_length (dest : String) (cl : Option String) :
    (cl = none → downloadOnResponse dest cl = DownloadStep.rejectedError sizeUnknownError) ∧
    (∀ effs, downloadOnResponse dest cl = DownloadStep.proceedPipeline effs →
      ∃ l, cl = some l ∧ l ≠ "") := by
  constructor
  · intro h
    rw [h]
    rfl
  · intro effs h
    cases cl with
    | none => simp [downloadOnResponse] at h
    | some l =>
      refine ⟨l, rfl, ?_⟩
      intro hl
      rw [hl] at h
      simp [downloadOnResponse] at h

/-- Witness for C9 at a header-less response. -/
theorem download_requires_content_length_witness :
    downloadOnResponse ("/dest") none = DownloadStep.rejectedError sizeUnknownError :=
  (download_requires_content_length ("/dest") none).1 rfl

/-- Claim C5: for every filesystem view, `#find` returns `true` exactly when
listing the resolved path succeeds and yields a file named
`DynamoDBLocal.jar` and a directory named `DynamoDBLocal_lib` whose own
listing succeeds and contains every manifest name (order irrelevant, extra
files allowed); every filesystem error (a `none` listing) yields `false`
rather than propagating. -/
theorem find_spec (fs : FileSystem) (rn : String → String) (li : List String)
    (path : String) :
    find fs rn li path = true ↔
      ∃ files, fs.readdirTypes (rn path) = some files ∧
        (∃ file ∈ files, file.name = "DynamoDBLocal.jar" ∧ file.isFile = true) ∧
        (∃ file ∈ files, file.name = "DynamoDBLocal_lib" ∧ file.isDirectory = true) ∧
        ∃ libFiles,
          fs.readdirNames (pjoin (rn path) ("DynamoDBLocal_lib")) = some libFiles ∧
          ∀ x ∈ li, x ∈ libFiles := by
  unfold find
  cases hrd : fs.readdirTypes (rn path) with
  | none => simp [hrd]
  | some files =>
    cases hln : fs.readdirNames (pjoin (rn path) ("DynamoDBLocal_lib")) with
    | none => simp [hrd, hln]
    | some libFiles => simp [hrd, hln, and_assoc]

/-- Every successful `#generateArgs` run passed the port check and the
mutual-exclusion check, and its output is the concatenation of the named
sections in source push order. -/
theorem generateArgs_ok_shape (ip : String) (rn : String → String)
    (o : DynamoDBOptions) (out : ArgsOut)
    (hok : generateArgs ip rn o = Except.ok out) :
    ∃ pp, portPart o.port = Except.ok pp ∧
      (jsBool o.inMemory && dbTruthy o.dbPath) = false ∧
      out = ⟨baseArgs ip ++ corsPart o.cors ++ pp ++ memArgs (jsBool o.inMemory) ++
        (dbSection ip rn (jsBool o.inMemory) o.dbPath).1 ++
        flagArgs (jsBool o.delayTransientStatuses) (jsBool o.sharedDB),
        (dbSection ip rn (jsBool o.inMemory) o.dbPath).2⟩ := by
  unfold generateArgs at hok
  cases hpp : portPart o.port with
  | error e =>
    rw [hpp] at hok
    simp at hok
  | ok pp =>
    rw [hpp] at hok
    simp only [] at hok
    by_cases hc : (jsBool o.inMemory && dbTruthy o.dbPath) = true
    · rw [if_pos hc] at hok
      exact absurd hok (by simp)
    · have hcf : (jsBool o.inMemory && dbTruthy o.dbPath) = false := by
        revert hc
        cases (jsBool o.inMemory && dbTruthy o.dbPath) <;> simp
      rw [if_neg hc] at hok
      refine ⟨pp, rfl, hcf, ?_⟩
      exact (((Except.ok.injEq _ _).mp hok)).symm

/-- Claim C3 (counterexample): `port := -1` is a present, non-positive value,
yet `#generateArgs` accepts it and appends `-port -1` — `Number.isInteger`
admits every integer, not only positive ones. -/
theorem generateArgs_accepts_negative_port :
    generateArgs ("/i") id {port := some (.int (-1))} =
      Except.ok ⟨["-Djava.library.path=/i/DynamoDBLocal_lib", "-jar",
        "/i/DynamoDBLocal.jar", "-port", "-1", "-dbPath", "/i/DynamoDBLocal_db"],
        [FsEffect.mkdirRec ("/i/DynamoDBLocal_db")]⟩ := rfl

/-- Claim C3 (amended): a present `port` is accepted — with `-port` followed
by its decimal string appended — exactly when it is an integer
(`Number.isInteger`), including zero and negative integers; every non-integer
number and non-numeric value fails with the `Port must be an Integer` config
error and is never coerced. -/
theorem generateArgs_port_integer_check (ip : String) (rn : String → String)
    (o : DynamoDBOptions) (p : PortVal) (hp : o.port = some p) :
    (p.isInteger = false →
      generateArgs ip rn o = Except.error ⟨"config error", "Port must be an Integer"⟩) ∧
    (p.isInteger = true →
      generateArgs ip rn o ≠ Except.error ⟨"config error", "Port must be an Integer"⟩) ∧
    (∀ n out, p = PortVal.int n → generateArgs ip rn o = Except.ok out →
      ∃ l r, out.args = l ++ ["-port", toString n] ++ r) := by
  refine ⟨?_, ?_, ?_⟩
  · intro hni
    have hpp : portPart o.port =
        Except.error ⟨"config error", "Port must be an Integer"⟩ := by
      rw [hp]
      simp [portPart, hni]
    unfold generateArgs
    rw [hpp]
  · intro hi hce
    have hpp : portPart o.port = Except.ok ["-port", p.toJsString] := by
      rw [hp]
      simp [portPart, hi]
    unfold generateArgs at hce
    rw [hpp] at hce
    simp only [] at hce
    by_cases hc : (jsBool o.inMemory && dbTruthy o.dbPath) = true
    · rw [if_pos hc] at hce
      have := (Except.error.injEq _ _).mp hce
      exact absurd (congrArg DynamoDBLocalError.message this) (by decide)
    · rw [if_neg hc] at hce
      exact absurd hce (by simp)
  · intro n out hn hok
    subst hn
    obtain ⟨pp, hpp, hcf, hout⟩ := generateArgs_ok_shape ip rn o out hok
    have hpv : pp = ["-port", toString n] := by
      rw [hp] at hpp
      have h2 : Except.ok (ε := DynamoDBLocalError)
          ["-port", (PortVal.int n).toJsString] = Except.ok pp := hpp
      exact ((Except.ok.injEq _ _).mp h2).symm
    refine ⟨baseArgs ip ++ corsPart o.cors,
      memArgs (jsBool o.inMemory) ++ (dbSection ip rn (jsBool o.inMemory) o.dbPath).1 ++
        flagArgs (jsBool o.delayTransientStatuses) (jsBool o.sharedDB), ?_⟩
    rw [hout, hpv]
    simp [List.append_assoc]

/-- Witness for the amended C3 at the non-integer port `3000.5`. -/
theorem generateArgs_port_integer_check_witness :
    generateArgs ("/i") id {port := some PortVal.nonIntNum} =
      Except.error ⟨"config error", "Port must be an Integer"⟩ :=
  (generateArgs_port_integer_check ("/i") id {port := some PortVal.nonIntNum}
    PortVal.nonIntNum rfl).1 rfl

/-- Invalid cors values (claim C10's enumeration) contribute nothing to the
argument list. -/
theorem corsPart_eq_nil (c : Option CorsVal) (h : corsInvalid c = true) :
    corsPart c = [] := by
  cases c with
  | none => rfl
  | some cv =>
    cases cv with
    | notArr => rfl
    | arr xs =>
      simp [corsInvalid] at h
      rcases h with h | h
      · subst h
        rfl
      · have hf : (xs.all CorsElem.isStr) = false := by
          simpa [List.all_eq_false] using h
        simp only [corsPart]
        rw [hf]
        simp

/-- The trailing flag section only ever holds the two fixed flag literals. -/
theorem mem_flagArgs (d s : Bool) (x : String) (hx : x ∈ flagArgs d s) :
    x = "-delayTransientStatuses" ∨ x = "-sharedDb" := by
  cases d <;> cases s <;> simp [flagArgs] at hx <;> tauto

/-- A string that is not `-jar`, has no separator, and whose second character
is not `D` is not among the three base arguments. -/
theorem not_mem_baseArgs (ip s : String) (h1 : s.data.get? 1 ≠ some 'D')
    (h2 : '/' ∉ s.data) (h3 : s ≠ "-jar") : s ∉ baseArgs ip := by
  intro hmem
  simp [baseArgs] at hmem
  rcases hmem with h | h | h
  · exact djava_ne _ s h1 h.symm
  · exact h3 h
  · exact pjoin_ne ip ("DynamoDBLocal.jar") s h2 h.symm

/-- A string that is not `-dbPath` and has no separator is not among the
default data-directory arguments. -/
theorem not_mem_dbPair (ip b s : String) (h2 : '/' ∉ s.data) (h4 : s ≠ "-dbPath") :
    s ∉ ["-dbPath", pjoin ip b] := by
  intro hmem
  simp at hmem
  rcases hmem with h | h
  · exact h4 h
  · exact pjoin_ne ip b s h2 h.symm

/-- A string with no separator, second character not `D`, distinct from
`-jar` and `-dbPath`, is not among the base-plus-default-dbPath arguments. -/
theorem not_mem_core (ip b s : String) (h1 : s.data.get? 1 ≠ some 'D')
    (h2 : '/' ∉ s.data) (h3 : s ≠ "-jar") (h4 : s ≠ "-dbPath") :
    s ∉ baseArgs ip ++ ["-dbPath", pjoin ip b] := by
  intro hmem
  rcases List.mem_append.mp hmem with h | h
  · exact not_mem_baseArgs ip s h1 h2 h3 h
  · exact not_mem_dbPair ip b s h2 h4 h

/-- Claim C4 (counterexample): with `inMemory` and `dbPath` both unset, the
built argument list can still contain the literal `-optimizeDbBeforeStartup`
when the caller supplies it as a CORS value — the list is caller-injectable,
so the unqualified non-containment in the claim fails. -/
theorem generateArgs_optimize_flag_injectable :
    "-optimizeDbBeforeStartup" ∈ argsOf (generateArgs ("/i") id
      {cors := some (CorsVal.arr [CorsElem.str ("-optimizeDbBeforeStartup")])}) := by
  decide

/-- Claim C4 (amended): with `inMemory` unset — (a) a non-empty `dbPath`
yields `-dbPath`, the resolved path and `-optimizeDbBeforeStartup`
consecutively, and a directory-creation call for that path is issued; (b) with
`dbPath` also unset, the list holds `-dbPath` followed by
`<installPath>/DynamoDBLocal_db` (whose creation call is issued) and omits
`-optimizeDbBeforeStartup` provided no caller-supplied string value (the
joined CORS value or the rendered port) equals that literal. -/
theorem generateArgs_dbPath_sections (ip : String) (rn : String → String)
    (o : DynamoDBOptions) (hm : o.inMemory = none) :
    (∀ s out, o.dbPath = some s → s ≠ "" → generateArgs ip rn o = Except.ok out →
      (∃ l r, out.args = l ++ ["-dbPath", rn s, "-optimizeDbBeforeStartup"] ++ r) ∧
      FsEffect.mkdirRec (rn s) ∈ out.effects) ∧
    (∀ out, o.dbPath = none → generateArgs ip rn o = Except.ok out →
      (∃ l r, out.args = l ++ ["-dbPath", pjoin ip ("DynamoDBLocal_db")] ++ r) ∧
      FsEffect.mkdirRec (pjoin ip ("DynamoDBLocal_db")) ∈ out.effects ∧
      ("-optimizeDbBeforeStartup" ∉ corsPart o.cors →
        (∀ pv, o.port = some pv → pv.toJsString ≠ "-optimizeDbBeforeStartup") →
        "-optimizeDbBeforeStartup" ∉ out.args)) := by
  constructor
  · intro s out hd hs hok
    obtain ⟨pp, hpp, hcf, hout⟩ := generateArgs_ok_shape ip rn o out hok
    have hdbs : dbSection ip rn (jsBool o.inMemory) o.dbPath =
        (["-dbPath", rn s, "-optimizeDbBeforeStartup"], [FsEffect.mkdirRec (rn s)]) := by
      rw [hm, hd]
      have hne : (s != "") = true := by simpa using hs
      simp [dbSection, dbTruthy, hne, jsBool]
    rw [hout, hdbs]
    constructor
    · exact ⟨baseArgs ip ++ corsPart o.cors ++ pp ++ memArgs (jsBool o.inMemory),
        flagArgs (jsBool o.delayTransientStatuses) (jsBool o.sharedDB),
        by simp [List.append_assoc]⟩
    · simp
  · intro out hd hok
    obtain ⟨pp, hpp, hcf, hout⟩ := generateArgs_ok_shape ip rn o out hok
    have hdbs : dbSection ip rn (jsBool o.inMemory) o.dbPath =
        (["-dbPath", pjoin ip ("DynamoDBLocal_db")],
         [FsEffect.mkdirRec (pjoin ip ("DynamoDBLocal_db"))]) := by
      rw [hm, hd]
      rfl
    rw [hout, hdbs]
    refine ⟨⟨baseArgs ip ++ corsPart o.cors ++ pp ++ memArgs (jsBool o.inMemory),
        flagArgs (jsBool o.delayTransientStatuses) (jsBool o.sharedDB),
        by simp [List.append_assoc]⟩, by simp, ?_⟩
    intro hcors hport hmem
    simp only [] at hmem
    rcases List.mem_append.mp hmem with h5 | hf
    · rcases List.mem_append.mp h5 with h4 | hdb
      · rcases List.mem_append.mp h4 with h3 | hmm
        · rcases List.mem_append.mp h3 with h2 | hp
          · rcases List.mem_append.mp h2 with hb | hc
            · exact not_mem_baseArgs ip ("-optimizeDbBeforeStartup")
                (by decide) (by decide) (by decide) hb
            · exact hcors hc
          · rcases portPart_ok_shape o.port pp hpp with ⟨hpo, hppn⟩ | ⟨pv, hpo, hppv⟩
            · rw [hppn] at hp
              simp at hp
            · rw [hppv] at hp
              simp at hp
              exact hport pv hpo hp.symm
        · rw [hm] at hmm
          simp [memArgs, jsBool] at hmm
      · exact not_mem_dbPair ip ("DynamoDBLocal_db") ("-optimizeDbBeforeStartup")
          (by decide) (by decide) hdb
    · rcases mem_flagArgs _ _ _ hf with h | h <;> revert h <;> decide

/-- Witness for the amended C4, part (a), at `dbPath = "/tmp/x"`. -/
theorem generateArgs_dbPath_sections_witness :
    (∃ l r, (⟨["-Djava.library.path=/i/DynamoDBLocal_lib", "-jar",
        "/i/DynamoDBLocal.jar", "-dbPath", "/tmp/x", "-optimizeDbBeforeStartup"],
        [FsEffect.mkdirRec ("/tmp/x")]⟩ : ArgsOut).args =
      l ++ ["-dbPath", id ("/tmp/x"), "-optimizeDbBeforeStartup"] ++ r) ∧
    FsEffect.mkdirRec (id ("/tmp/x")) ∈
      (⟨["-Djava.library.path=/i/DynamoDBLocal_lib", "-jar",
        "/i/DynamoDBLocal.jar", "-dbPath", "/tmp/x", "-optimizeDbBeforeStartup"],
        [FsEffect.mkdirRec ("/tmp/x")]⟩ : ArgsOut).effects :=
  (generateArgs_dbPath_sections ("/i") id {dbPath := some ("/tmp/x")} rfl).1
    ("/tmp/x") _ rfl (by decide) rfl

/-- Claim C10: invalid cors values (absent, non-array, empty array, array with
a non-string element) contribute nothing and raise nothing — the build result
is identical to the same configuration without `cors`, and the produced list
has no `-cors` entry; a valid non-empty all-string list is joined with a
comma-plus-space separator after a `-cors` marker. -/
theorem generateArgs_cors_handling (c : Option CorsVal) :
    (corsInvalid c = true → corsPart c = []) ∧
    (∀ ip rn o, o.cors = c → corsInvalid c = true →
      generateArgs ip rn o = generateArgs ip rn {o with cors := none}) ∧
    (∀ xs, xs ≠ [] → xs.all CorsElem.isStr = true →
      corsPart (some (CorsVal.arr xs)) =
        ["-cors", String.intercalate (", ") (xs.map CorsElem.toStr)]) ∧
    (∀ ip rn out, corsInvalid c = true →
      generateArgs ip rn {cors := c} = Except.ok out → "-cors" ∉ out.args) := by
  refine ⟨corsPart_eq_nil c, ?_, ?_, ?_⟩
  · intro ip rn o ho hinv
    obtain ⟨co, dbp, dl, im, po, sh⟩ := o
    have ho2 : co = c := ho
    subst ho2
    unfold generateArgs
    rw [corsPart_eq_nil co hinv, show corsPart none = [] from rfl]
  · intro xs hne hall
    have hc : (xs.length != 0 && xs.all CorsElem.isStr) = true := by
      simp [hall, List.length_eq_zero, hne]
    simp only [corsPart, hc, if_true]
  · intro ip rn out hinv hok
    obtain ⟨pp, hpp, hcf, hout⟩ := generateArgs_ok_shape ip rn _ out hok
    have hpp0 : pp = [] := by
      have h2 : Except.ok (ε := DynamoDBLocalError) ([] : List String) = Except.ok pp := hpp
      exact ((Except.ok.injEq _ _).mp h2).symm
    subst hpp0
    rw [hout]
    show ("-cors") ∉ baseArgs ip ++ corsPart c ++ [] ++ memArgs (jsBool none) ++
      (dbSection ip rn (jsBool none) none).1 ++ flagArgs (jsBool none) (jsBool none)
    rw [corsPart_eq_nil c hinv]
    exact not_mem_core ip ("DynamoDBLocal_db") ("-cors") (by decide) (by decide)
      (by decide) (by decide)

/-- Witness for C10 at a non-array cors value. -/
theorem generateArgs_cors_handling_witness :
    generateArgs ("/i") id {cors := some CorsVal.notArr} =
      generateArgs ("/i") id
        {({cors := some CorsVal.notArr} : DynamoDBOptions) with cors := none} :=
  (generateArgs_cors_handling (some CorsVal.notArr)).2.1 ("/i") id _ rfl rfl

/-- Witness for C5 on a concrete valid installation. -/
theorem find_spec_witness :
    find sampleFs id ["x.jar"] ("/p") = true :=
  (find_spec sampleFs id ["x.jar"] ("/p")).mpr
    ⟨[⟨"DynamoDBLocal.jar", true, false⟩, ⟨"DynamoDBLocal_lib", false, true⟩],
     rfl, ⟨⟨"DynamoDBLocal.jar", true, false⟩, by decide, rfl, rfl⟩,
     ⟨⟨"DynamoDBLocal_lib", false, true⟩, by decide, rfl, rfl⟩,
     ["x.jar", "y.jar"], rfl, by decide⟩

end DDB
